import Mathlib

/-!
Verification development for the UCSB dining nutrition estimation engine
(`estimate_nutrition.py`).  The Python code is shallowly embedded: Python
floats are modelled as exact rationals, Python `int()` as truncation toward
zero, Python `round()` as round-half-to-even, Python dicts holding the
nutrition facts as a fixed record (fields the source only ever assigns
integer-valued expressions are typed `ℤ`; the four gram fields the source
rounds to one decimal are typed `ℚ`; the extra `potassium_mg` key that only
the baked-potato branch inserts is an `Option ℤ`, `none` meaning the key is
absent).  Fallible operations (Python `float(...)` raising `ValueError`,
dict indexing raising `KeyError`) return `Option`.
-/

namespace Soma

set_option maxRecDepth 4000

/-! ### Python string primitives, modelled over `List Char` -/

/-- Substring test: `isSubstr pat l` is Python's `pat in l`. -/
def isSubstr (pat : List Char) : List Char → Bool
  | [] => pat.isEmpty
  | c :: rest => pat.isPrefixOf (c :: rest) || isSubstr pat rest

/-- Python `pat in s` on strings. -/
def strContains (s pat : String) : Bool := isSubstr pat.data s.data

/-- Fuel-driven engine for Python `str.replace` (left-to-right,
non-overlapping).  The fuel is the length of the scanned list, which is
always sufficient. -/
def replaceFuel (pat rep : List Char) : Nat → List Char → List Char
  | _, [] => []
  | 0, l => l
  | fuel + 1, c :: rest =>
    if pat.isPrefixOf (c :: rest) then
      rep ++ replaceFuel pat rep fuel ((c :: rest).drop pat.length)
    else
      c :: replaceFuel pat rep fuel rest

/-- Python `s.replace(pat, rep)` (our patterns are always nonempty). -/
def pyReplace (s pat rep : String) : String :=
  ⟨replaceFuel pat.data rep.data s.data.length s.data⟩

/-- Python `s.lower()` (ASCII case folding suffices for this domain). -/
def pyLower (s : String) : String := ⟨s.data.map Char.toLower⟩

/-- Python `s.strip()`. -/
def pyStrip (s : String) : String :=
  ⟨((s.data.dropWhile Char.isWhitespace).reverse.dropWhile Char.isWhitespace).reverse⟩

/-! ### Python numeric primitives over exact rationals -/

/-- Python `round(q)`: round half to even. -/
def pyRound (q : ℚ) : ℤ :=
  if q - ⌊q⌋ < 1 / 2 then ⌊q⌋
  else if 1 / 2 < q - ⌊q⌋ then ⌊q⌋ + 1
  else if ⌊q⌋ % 2 = 0 then ⌊q⌋ else ⌊q⌋ + 1

/-- Python `round(q, 1)`: round half to even at one decimal place. -/
def pyRound1 (q : ℚ) : ℚ := (pyRound (10 * q) : ℚ) / 10

/-- Python `int(q)`: truncation toward zero. -/
def pyInt (q : ℚ) : ℤ := if q < 0 then -⌊-q⌋ else ⌊q⌋

/-! ### `parse_serving_size` -/

/-- Characters matched by the regex `[\d.]`. -/
def isNumChar (c : Char) : Bool := c.isDigit || c == '.'

/-- First match of the regex `([\d.]+)`: the first maximal run of digits
and dots, if any. -/
def firstNumToken (s : String) : Option (List Char) :=
  match s.data.dropWhile (fun c => !isNumChar c) with
  | [] => none
  | rest => some (rest.takeWhile isNumChar)

/-- Numeric value of a digit list (most significant first). -/
def digitsVal (l : List Char) : ℕ :=
  l.foldl (fun a c => 10 * a + (c.toNat - 48)) 0

/-- Python `float(tok)` for a token drawn from `[\d.]+`: succeeds iff the
token has at most one dot and at least one digit (`float(".")` and
`float("1.2.3")` raise `ValueError`). -/
def pyFloatOfToken (l : List Char) : Option ℚ :=
  if l.count '.' ≤ 1 && l.any Char.isDigit then
    some ((digitsVal (l.takeWhile (fun c => c ≠ '.')) : ℚ) +
      (digitsVal ((l.dropWhile (fun c => c ≠ '.')).drop 1) : ℚ) /
        (10 ^ ((l.dropWhile (fun c => c ≠ '.')).drop 1).length))
  else none

/-- The fraction-token substitution table of `parse_serving_size`
(`str(0.5) = "0.5"` and so on). -/
def fraction_map : List (String × String) :=
  [("1/2", "0.5"), ("1/3", "0.333"), ("1/4", "0.25"), ("2/3", "0.667"), ("3/4", "0.75")]

/-- The fraction-replacement loop of `parse_serving_size`. -/
def fracSubst (s : String) : String :=
  fraction_map.foldl
    (fun acc p => if strContains acc p.1 then pyReplace acc p.1 p.2 else acc) s

/-- The lower-cased, stripped, fraction-substituted serving text from which
both the amount and the unit are extracted. -/
def serving_text (s : String) : String := fracSubst (pyStrip (pyLower s))

/-- The unit-determination chain of `parse_serving_size`. -/
def servingUnit (s : String) : String :=
  if strContains s "cup" then "cup"
  else if strContains s "oz" then "oz"
  else if strContains s "ladle" then "oz"
  else if strContains s "slice" then "slice"
  else if strContains s "piece" then "piece"
  else if strContains s "potato" then "potato"
  else if strContains s "tortilla" then "tortilla"
  else if strContains s "burrito" then "burrito"
  else if strContains s "taco" then "taco"
  else if strContains s "quarter" then "quarter"
  else if strContains s "round" then "round"
  else if strContains s "ounce" then "oz"
  else "serving"

/-- Function `parse_serving_size`: `none` models the `ValueError` that Python's
`float` raises on a malformed numeric token. -/
def parse_serving_size (serving_str : String) : Option (ℚ × String) :=
  let s := serving_text serving_str
  match firstNumToken s with
  | none => some (1, servingUnit s)
  | some tok => (pyFloatOfToken tok).map (fun a => (a, servingUnit s))

/-! ### Daily values and the nutrition-facts record -/

/-- The `DAILY_VALUES` table (a read-only dict in the source). -/
def DAILY_VALUES (key : String) : ℚ :=
  if key = "total_fat" then 65
  else if key = "saturated_fat" then 20
  else if key = "cholesterol" then 300
  else if key = "sodium" then 2400
  else if key = "total_carbs" then 300
  else if key = "dietary_fiber" then 25
  else if key = "vitamin_a" then 5000
  else if key = "vitamin_c" then 60
  else if key = "calcium" then 1000
  else if key = "iron" then 18
  else 0

/-- Function `calc_dv_percent`. -/
def calc_dv_percent (value : ℚ) (dv : ℚ) : ℤ := pyRound (value / dv * 100)

/-- The nutrition-facts dict.  `potassium_mg = none` means the key is
absent (only the baked-potato branch of the starch estimator inserts it). -/
structure NutritionFacts where
  calories : ℤ
  calories_from_fat : ℤ
  total_fat_g : ℚ
  total_fat_dv : ℤ
  saturated_fat_g : ℚ
  saturated_fat_dv : ℤ
  trans_fat_g : ℚ
  cholesterol_mg : ℤ
  cholesterol_dv : ℤ
  sodium_mg : ℤ
  sodium_dv : ℤ
  total_carbs_g : ℤ
  total_carbs_dv : ℤ
  dietary_fiber_g : ℚ
  dietary_fiber_dv : ℤ
  sugars_g : ℤ
  protein_g : ℚ
  vitamin_a_dv : ℤ
  vitamin_c_dv : ℤ
  calcium_dv : ℤ
  iron_dv : ℤ
  potassium_mg : Option ℤ := none
  deriving DecidableEq

/-- Function `create_base_nutrition`: every field zero, no extra key. -/
def create_base_nutrition : NutritionFacts :=
  { calories := 0, calories_from_fat := 0, total_fat_g := 0, total_fat_dv := 0
    saturated_fat_g := 0, saturated_fat_dv := 0, trans_fat_g := 0
    cholesterol_mg := 0, cholesterol_dv := 0, sodium_mg := 0, sodium_dv := 0
    total_carbs_g := 0, total_carbs_dv := 0, dietary_fiber_g := 0
    dietary_fiber_dv := 0, sugars_g := 0, protein_g := 0, vitamin_a_dv := 0
    vitamin_c_dv := 0, calcium_dv := 0, iron_dv := 0, potassium_mg := none }

/-! ### Category estimators -/

/-- Body of `estimate_protein_nutrition` after serving-size parsing. -/
def protein_core (name_lower : String) (amount : ℚ) (unit : String) : NutritionFacts :=
  let nutr := create_base_nutrition
  let nutr :=
    if strContains name_lower "chicken" then
      if unit = "quarter" ∨ strContains name_lower "quarter" then
        { nutr with
            calories := 280
            total_fat_g := 14
            saturated_fat_g := 4
            cholesterol_mg := 95
            sodium_mg := 520
            protein_g := 32
            total_carbs_g := 2 }
      else
        { nutr with
            calories := pyInt (50 * amount)
            total_fat_g := pyRound1 (2.5 * amount)
            saturated_fat_g := pyRound1 (0.7 * amount)
            cholesterol_mg := pyInt (25 * amount)
            sodium_mg := pyInt (150 * amount)
            protein_g := (pyRound (7 * amount) : ℚ) }
    else if strContains name_lower "salmon" then
      let oz := if unit = "oz" then amount else 4
      { nutr with
          calories := pyInt (58 * oz)
          total_fat_g := pyRound1 (3.5 * oz / 4)
          saturated_fat_g := pyRound1 (0.8 * oz / 4)
          cholesterol_mg := pyInt (18 * oz)
          sodium_mg := pyInt (150 * oz)
          protein_g := (pyRound (6.5 * oz) : ℚ)
          vitamin_a_dv := 2
          iron_dv := 4 }
    else if strContains name_lower "pork" then
      let oz := if unit = "oz" then amount else 3
      { nutr with
          calories := pyInt (55 * oz)
          total_fat_g := pyRound1 (3 * oz / 3)
          saturated_fat_g := pyRound1 (1 * oz / 3)
          cholesterol_mg := pyInt (22 * oz)
          sodium_mg := pyInt (180 * oz)
          protein_g := (pyRound (7 * oz) : ℚ)
          iron_dv := 4 }
    else if strContains name_lower "calamari" then
      let pieces := if strContains unit "piece" then amount else 3
      { nutr with
          calories := pyInt (45 * pieces)
          total_fat_g := pyRound1 (1.5 * pieces)
          cholesterol_mg := pyInt (30 * pieces)
          sodium_mg := pyInt (120 * pieces)
          protein_g := (pyRound (4 * pieces) : ℚ)
          total_carbs_g := pyInt (5 * pieces) }
    else if strContains name_lower "pepperoni" then
      { nutr with
          calories := 320
          total_fat_g := 15
          saturated_fat_g := 6
          cholesterol_mg := 35
          sodium_mg := 750
          protein_g := 14
          total_carbs_g := 32 }
    else if strContains name_lower "meat sauce" then
      let oz := if unit = "oz" then amount else 3
      { nutr with
          calories := pyInt (35 * oz)
          total_fat_g := pyRound1 (2 * oz / 3)
          saturated_fat_g := pyRound1 (0.8 * oz / 3)
          cholesterol_mg := pyInt (8 * oz)
          sodium_mg := pyInt (180 * oz)
          protein_g := (pyRound (2.5 * oz) : ℚ)
          total_carbs_g := pyInt (3 * oz) }
    else nutr
  -- Adjust for cooking method
  if strContains name_lower "baked" ∨ strContains name_lower "roast" then
    { nutr with total_fat_g := pyRound1 (nutr.total_fat_g * 0.9) }
  else if strContains name_lower "fried" ∨ strContains name_lower "grilled" then
    { nutr with
        total_fat_g := pyRound1 (nutr.total_fat_g * 1.1)
        calories := pyInt ((nutr.calories : ℚ) * 1.05) }
  else nutr

/-- Function `estimate_protein_nutrition`. -/
def estimate_protein_nutrition (name serving_size : String) (tags : List String) :
    Option NutritionFacts :=
  (parse_serving_size serving_size).map fun p => protein_core (pyLower name) p.1 p.2

/-- Body of `estimate_starch_nutrition` after serving-size parsing. -/
def starch_core (name_lower : String) (amount : ℚ) (unit : String) (tags : List String) :
    NutritionFacts :=
  let nutr := create_base_nutrition
  if strContains name_lower "rice" then
    let cups := if unit = "cup" then amount else 0.5
    let nutr :=
      if strContains name_lower "brown" then
        { nutr with
            calories := pyInt (110 * cups * 2)
            total_carbs_g := pyInt (23 * cups * 2)
            dietary_fiber_g := pyRound1 (2 * cups * 2)
            protein_g := (pyRound (2.5 * cups * 2) : ℚ) }
      else if strContains name_lower "fried" then
        { nutr with
            calories := pyInt (130 * cups * 2)
            total_fat_g := pyRound1 (4 * cups * 2)
            total_carbs_g := pyInt (20 * cups * 2)
            sodium_mg := pyInt (400 * cups * 2)
            protein_g := (pyRound (3 * cups * 2) : ℚ) }
      else
        { nutr with
            calories := pyInt (105 * cups * 2)
            total_carbs_g := pyInt (22 * cups * 2)
            protein_g := (pyRound (2 * cups * 2) : ℚ) }
    if strContains name_lower "pilaf" ∨ strContains name_lower "spanish" then
      { nutr with
          total_fat_g := pyRound1 (nutr.total_fat_g + 2)
          sodium_mg := pyInt ((nutr.sodium_mg : ℚ) + 350)
          calories := nutr.calories + 25 }
    else nutr
  else if strContains name_lower "pasta" ∨ strContains name_lower "spaghetti" ∨
      strContains name_lower "spirals" ∨ strContains name_lower "farfalle" then
    let cups := if unit = "cup" then amount else 0.33
    let nutr :=
      { nutr with
          calories := pyInt (100 * cups * 3)
          total_carbs_g := pyInt (20 * cups * 3)
          protein_g := (pyRound (3.5 * cups * 3) : ℚ)
          dietary_fiber_g := pyRound1 (1 * cups * 3) }
    let nutr :=
      if strContains name_lower "whole wheat" then
        { nutr with dietary_fiber_g := pyRound1 (2.5 * cups * 3) }
      else nutr
    let nutr :=
      if strContains name_lower "carbonara" then
        { nutr with
            calories := 350
            total_fat_g := 18
            saturated_fat_g := 8
            cholesterol_mg := 65
            sodium_mg := 580
            protein_g := 14 }
      else nutr
    let nutr :=
      if strContains name_lower "primavera" then
        { nutr with
            calories := pyInt ((nutr.calories : ℚ) * 1.1)
            vitamin_a_dv := 15
            vitamin_c_dv := 10
            sodium_mg := 380 }
      else nutr
    if strContains name_lower "olive oil" ∨ strContains name_lower "garlic" then
      { nutr with
          total_fat_g := pyRound1 (nutr.total_fat_g + 5)
          calories := nutr.calories + 45 }
    else nutr
  else if strContains name_lower "potato" then
    let nutr :=
      if strContains name_lower "baked" ∨ unit = "potato" then
        { nutr with
            calories := 160
            total_carbs_g := 37
            dietary_fiber_g := 4
            protein_g := 4
            vitamin_c_dv := 28
            potassium_mg := some 926
            sodium_mg := 17 }
      else nutr
    let nutr :=
      if strContains name_lower "sweet" then
        { nutr with
            calories := 180
            total_carbs_g := 41
            sugars_g := 13
            dietary_fiber_g := 6
            vitamin_a_dv := 380 }
      else nutr
    if strContains name_lower "mashed" then
      let oz := if unit = "oz" then amount else 5
      let nutr :=
        { nutr with
            calories := pyInt (30 * oz)
            total_fat_g := pyRound1 (2 * oz / 5)
            total_carbs_g := pyInt (5 * oz)
            sodium_mg := pyInt (100 * oz) }
      if tags.contains "vegetarian" then
        { nutr with
            total_fat_g := pyRound1 (nutr.total_fat_g * 1.2)
            calories := nutr.calories + 15 }
      else nutr
    else nutr
  else if strContains name_lower "quinoa" then
    let cups := if unit = "cup" then amount else 0.5
    { nutr with
        calories := pyInt (110 * cups * 2)
        total_fat_g := pyRound1 (1.8 * cups * 2)
        total_carbs_g := pyInt (20 * cups * 2)
        dietary_fiber_g := pyRound1 (2.5 * cups * 2)
        protein_g := (pyRound (4 * cups * 2) : ℚ)
        iron_dv := pyInt (8 * cups * 2) }
  else if strContains name_lower "tortilla" then
    if strContains name_lower "flour" then
      { nutr with
          calories := 140
          total_fat_g := 3.5
          total_carbs_g := 24
          sodium_mg := 340
          protein_g := 4 }
    else if strContains name_lower "corn" then
      { nutr with
          calories := 60
          total_fat_g := 1
          total_carbs_g := 12
          dietary_fiber_g := 1.5
          sodium_mg := 10
          protein_g := 1.5 }
    else if strContains name_lower "wheat" then
      { nutr with
          calories := 120
          total_fat_g := 2.5
          total_carbs_g := 20
          dietary_fiber_g := 3
          sodium_mg := 300
          protein_g := 4 }
    else nutr
  else nutr

/-- Function `estimate_starch_nutrition`. -/
def estimate_starch_nutrition (name serving_size : String) (tags : List String) :
    Option NutritionFacts :=
  (parse_serving_size serving_size).map fun p => starch_core (pyLower name) p.1 p.2 tags

/-- Body of `estimate_vegetable_nutrition` after serving-size parsing. -/
def vegetable_core (name_lower : String) (amount : ℚ) (unit : String) (tags : List String) :
    NutritionFacts :=
  let nutr := create_base_nutrition
  let is_vegan := tags.contains "vegan"
  let cups := if unit = "cup" then amount else 0.5
  let nutr :=
    if strContains name_lower "broccoli" then
      { nutr with
          calories := pyInt (27 * cups * 2)
          total_carbs_g := pyInt (5 * cups * 2)
          dietary_fiber_g := pyRound1 (2.5 * cups * 2)
          protein_g := (pyRound (2.5 * cups * 2) : ℚ)
          vitamin_c_dv := pyInt (90 * cups * 2)
          vitamin_a_dv := pyInt (10 * cups * 2)
          calcium_dv := pyInt (4 * cups * 2) }
    else if strContains name_lower "cauliflower" then
      { nutr with
          calories := pyInt (25 * cups * 2)
          total_carbs_g := pyInt (5 * cups * 2)
          dietary_fiber_g := pyRound1 (2 * cups * 2)
          protein_g := (pyRound (2 * cups * 2) : ℚ)
          vitamin_c_dv := pyInt (50 * cups * 2) }
    else if strContains name_lower "carrot" then
      { nutr with
          calories := pyInt (25 * cups * 2)
          total_carbs_g := pyInt (6 * cups * 2)
          sugars_g := pyInt (3 * cups * 2)
          dietary_fiber_g := pyRound1 (1.5 * cups * 2)
          vitamin_a_dv := pyInt (200 * cups * 2) }
    else if strContains name_lower "green bean" then
      { nutr with
          calories := pyInt (22 * cups * 2)
          total_carbs_g := pyInt (5 * cups * 2)
          dietary_fiber_g := pyRound1 (2 * cups * 2)
          protein_g := (pyRound (1 * cups * 2) : ℚ)
          vitamin_c_dv := pyInt (15 * cups * 2)
          vitamin_a_dv := pyInt (8 * cups * 2) }
    else if strContains name_lower "spinach" then
      { nutr with
          calories := pyInt (7 * cups * 2)
          total_carbs_g := pyInt (1 * cups * 2)
          dietary_fiber_g := pyRound1 (0.7 * cups * 2)
          protein_g := (pyRound (1 * cups * 2) : ℚ)
          vitamin_a_dv := pyInt (56 * cups * 2)
          vitamin_c_dv := pyInt (14 * cups * 2)
          iron_dv := pyInt (5 * cups * 2) }
    else if strContains name_lower "cabbage" then
      { nutr with
          calories := pyInt (17 * cups * 2)
          total_carbs_g := pyInt (4 * cups * 2)
          dietary_fiber_g := pyRound1 (1 * cups * 2)
          vitamin_c_dv := pyInt (30 * cups * 2) }
    else  -- Generic vegetable
      { nutr with
          calories := pyInt (25 * cups * 2)
          total_carbs_g := pyInt (5 * cups * 2)
          dietary_fiber_g := pyRound1 (2 * cups * 2)
          vitamin_a_dv := 10
          vitamin_c_dv := 10 }
  -- Add fat if not vegan (likely cooked with butter)
  let nutr :=
    if !is_vegan then
      { nutr with
          total_fat_g := pyRound1 (nutr.total_fat_g + 2)
          calories := nutr.calories + 18
          cholesterol_mg := 5 }
    else nutr
  -- Add sodium for institutional cooking
  { nutr with sodium_mg := nutr.sodium_mg + 150 }

/-- Function `estimate_vegetable_nutrition`. -/
def estimate_vegetable_nutrition (name serving_size : String) (tags : List String) :
    Option NutritionFacts :=
  (parse_serving_size serving_size).map fun p => vegetable_core (pyLower name) p.1 p.2 tags

/-- Body of `estimate_soup_nutrition` after serving-size parsing. -/
def soup_core (name_lower : String) (amount : ℚ) (unit : String) : NutritionFacts :=
  let nutr := create_base_nutrition
  let oz := if unit = "oz" then amount else 6
  if strContains name_lower "tomato" ∨ strContains name_lower "cream" then
    let nutr :=
      { nutr with
          calories := pyInt (25 * oz)
          total_fat_g := pyRound1 (1.5 * oz / 6) }
    let nutr :=
      if strContains name_lower "cream" then
        { nutr with
            total_fat_g := pyRound1 (3 * oz / 6)
            saturated_fat_g := pyRound1 (1.5 * oz / 6) }
      else nutr
    { nutr with
        total_carbs_g := pyInt (3 * oz)
        sugars_g := pyInt (2 * oz / 6)
        sodium_mg := pyInt (120 * oz)
        protein_g := (pyRound (1 * oz / 6) : ℚ)
        vitamin_a_dv := 10
        vitamin_c_dv := 15 }
  else if strContains name_lower "potato" ∨ strContains name_lower "leek" then
    { nutr with
        calories := pyInt (22 * oz)
        total_fat_g := pyRound1 (1 * oz / 6)
        total_carbs_g := pyInt (3 * oz)
        sodium_mg := pyInt (110 * oz)
        protein_g := (pyRound (0.8 * oz / 6) : ℚ) }
  else if strContains name_lower "chili" then
    { nutr with
        calories := pyInt (35 * oz)
        total_fat_g := pyRound1 (2 * oz / 6)
        total_carbs_g := pyInt (3 * oz)
        dietary_fiber_g := pyRound1 (1.5 * oz / 6)
        sodium_mg := pyInt (150 * oz)
        protein_g := (pyRound (3 * oz / 6) : ℚ)
        iron_dv := 8 }
  else  -- Generic soup
    { nutr with
        calories := pyInt (20 * oz)
        total_carbs_g := pyInt (3 * oz)
        sodium_mg := pyInt (130 * oz) }

/-- Function `estimate_soup_nutrition`. -/
def estimate_soup_nutrition (name serving_size : String) (tags : List String) :
    Option NutritionFacts :=
  (parse_serving_size serving_size).map fun p => soup_core (pyLower name) p.1 p.2

/-- Function `estimate_pizza_nutrition` (the source never parses the serving size
here, so this estimator is total). -/
def pizza_core (name_lower : String) : NutritionFacts :=
  let nutr := create_base_nutrition
  -- Base cheese pizza
  let nutr :=
    { nutr with
        calories := 280
        total_fat_g := 11
        saturated_fat_g := 5
        cholesterol_mg := 25
        sodium_mg := 620
        total_carbs_g := 32
        sugars_g := 3
        protein_g := 12
        calcium_dv := 20 }
  let nutr :=
    if strContains name_lower "pepperoni" then
      { nutr with
          calories := 320
          total_fat_g := 15
          saturated_fat_g := 6
          cholesterol_mg := 35
          sodium_mg := 750
          protein_g := 14 }
    else if strContains name_lower "chicken" then
      { nutr with
          calories := 300
          total_fat_g := 12
          protein_g := 16
          sodium_mg := 680 }
    else if strContains name_lower "mushroom" ∨ strContains name_lower "veggie" ∨
        strContains name_lower "vegetable" then
      { nutr with
          calories := 260
          total_fat_g := 10
          vitamin_a_dv := 8 }
    else nutr
  if strContains name_lower "wheat" then
    { nutr with
        dietary_fiber_g := 3
        total_carbs_g := 30 }
  else nutr

/-- Function `estimate_pizza_nutrition`. -/
def estimate_pizza_nutrition (name serving_size : String) (tags : List String) :
    Option NutritionFacts :=
  some (pizza_core (pyLower name))

/-- Function `estimate_mexican_nutrition` (no serving-size parsing in the source). -/
def mexican_core (name_lower : String) (tags : List String) : NutritionFacts :=
  let nutr := create_base_nutrition
  let is_vegan := tags.contains "vegan"
  if strContains name_lower "burrito" then
    let nutr :=
      { nutr with
          calories := 450
          total_fat_g := 14
          saturated_fat_g := 5
          total_carbs_g := 55
          dietary_fiber_g := 6
          sodium_mg := 980
          protein_g := 22 }
    let nutr :=
      if strContains name_lower "bean" then
        { nutr with
            dietary_fiber_g := 9
            protein_g := 18 }
      else nutr
    if is_vegan ∨ strContains name_lower "vegetable" then
      { nutr with
          calories := 380
          total_fat_g := 10
          cholesterol_mg := 0
          protein_g := 12 }
    else nutr
  else if strContains name_lower "taco" then
    let nutr :=
      { nutr with
          calories := 180
          total_fat_g := 9
          saturated_fat_g := 3
          total_carbs_g := 15
          sodium_mg := 350
          protein_g := 10 }
    if is_vegan ∨ strContains name_lower "vegetable" then
      { nutr with
          calories := 140
          total_fat_g := 6
          cholesterol_mg := 0
          protein_g := 4 }
    else nutr
  else if strContains name_lower "salsa" then
    { nutr with
        calories := 10
        total_carbs_g := 2
        sodium_mg := 150
        vitamin_c_dv := 8 }
  else nutr

/-- Function `estimate_mexican_nutrition`. -/
def estimate_mexican_nutrition (name serving_size : String) (tags : List String) :
    Option NutritionFacts :=
  some (mexican_core (pyLower name) tags)

/-- Body of `estimate_beans_nutrition` after serving-size parsing. -/
def beans_core (name_lower : String) (amount : ℚ) (unit : String) : NutritionFacts :=
  let nutr := create_base_nutrition
  let cups := if unit = "cup" then amount else 0.5
  if strContains name_lower "black" then
    { nutr with
        calories := pyInt (115 * cups * 2)
        total_fat_g := pyRound1 (0.5 * cups * 2)
        total_carbs_g := pyInt (20 * cups * 2)
        dietary_fiber_g := pyRound1 (7.5 * cups * 2)
        protein_g := (pyRound (7.5 * cups * 2) : ℚ)
        iron_dv := pyInt (10 * cups * 2)
        sodium_mg := pyInt (200 * cups * 2) }
  else if strContains name_lower "refried" then
    { nutr with
        calories := pyInt (120 * cups * 2)
        total_fat_g := pyRound1 (2 * cups * 2)
        total_carbs_g := pyInt (18 * cups * 2)
        dietary_fiber_g := pyRound1 (6 * cups * 2)
        protein_g := (pyRound (7 * cups * 2) : ℚ)
        sodium_mg := pyInt (450 * cups * 2) }
  else  -- Generic beans
    { nutr with
        calories := pyInt (110 * cups * 2)
        total_carbs_g := pyInt (19 * cups * 2)
        dietary_fiber_g := pyRound1 (6 * cups * 2)
        protein_g := (pyRound (7 * cups * 2) : ℚ)
        sodium_mg := pyInt (250 * cups * 2) }

/-- Function `estimate_beans_nutrition`. -/
def estimate_beans_nutrition (name serving_size : String) (tags : List String) :
    Option NutritionFacts :=
  (parse_serving_size serving_size).map fun p => beans_core (pyLower name) p.1 p.2

/-- The tag-independent branch portion of `estimate_salad_nutrition`. -/
def salad_core_base (name_lower : String) (amount : ℚ) (unit : String) : NutritionFacts :=
  let nutr := create_base_nutrition
  let cups := if unit = "cup" then amount else 0.5
  if strContains name_lower "caesar" then
    { nutr with
        calories := pyInt (90 * cups * 2)
        total_fat_g := pyRound1 (7 * cups * 2)
        saturated_fat_g := pyRound1 (1.5 * cups * 2)
        total_carbs_g := pyInt (4 * cups * 2)
        sodium_mg := pyInt (200 * cups * 2)
        protein_g := (pyRound (3 * cups * 2) : ℚ)
        vitamin_a_dv := 35
        cholesterol_mg := 10 }
  else if strContains name_lower "spinach" then
    let nutr :=
      { nutr with
          calories := pyInt (80 * cups * 2)
          total_fat_g := pyRound1 (5 * cups * 2)
          total_carbs_g := pyInt (6 * cups * 2)
          dietary_fiber_g := pyRound1 (2 * cups * 2)
          sodium_mg := pyInt (180 * cups * 2)
          vitamin_a_dv := 60
          iron_dv := 8 }
    if strContains name_lower "bacon" then
      { nutr with
          calories := nutr.calories + 50
          total_fat_g := nutr.total_fat_g + 4
          sodium_mg := nutr.sodium_mg + 180
          cholesterol_mg := 15 }
    else nutr
  else  -- Generic salad
    { nutr with
        calories := pyInt (50 * cups * 2)
        total_fat_g := pyRound1 (3 * cups * 2)
        total_carbs_g := pyInt (5 * cups * 2)
        vitamin_a_dv := 30
        vitamin_c_dv := 15 }

/-- Body of `estimate_salad_nutrition` after serving-size parsing (the
source also computes an `is_vegetarian` flag it never uses). -/
def salad_core (name_lower : String) (amount : ℚ) (unit : String) (tags : List String) :
    NutritionFacts :=
  let has_nuts := tags.contains "contains_nuts"
  let nutr := salad_core_base name_lower amount unit
  if has_nuts then
    { nutr with
        calories := nutr.calories + 80
        total_fat_g := nutr.total_fat_g + 7
        protein_g := nutr.protein_g + 2 }
  else nutr

/-- Function `estimate_salad_nutrition`. -/
def estimate_salad_nutrition (name serving_size : String) (tags : List String) :
    Option NutritionFacts :=
  (parse_serving_size serving_size).map fun p => salad_core (pyLower name) p.1 p.2 tags

/-- Function `estimate_bread_nutrition` (no serving-size parsing in the source). -/
def bread_core (name_lower : String) : NutritionFacts :=
  let nutr := create_base_nutrition
  if strContains name_lower "breadstick" then
    { nutr with
        calories := 140
        total_fat_g := 4
        total_carbs_g := 22
        sodium_mg := 280
        protein_g := 4 }
  else if strContains name_lower "pizza bread" then
    { nutr with
        calories := 180
        total_fat_g := 6
        saturated_fat_g := 2
        total_carbs_g := 26
        sodium_mg := 380
        protein_g := 6
        calcium_dv := 10 }
  else if strContains name_lower "pesto bread" then
    { nutr with
        calories := 160
        total_fat_g := 7
        total_carbs_g := 20
        sodium_mg := 320
        protein_g := 5 }
  else  -- Generic bread
    { nutr with
        calories := 150
        total_fat_g := 3
        total_carbs_g := 26
        sodium_mg := 280
        protein_g := 5 }

/-- Function `estimate_bread_nutrition`. -/
def estimate_bread_nutrition (name serving_size : String) (tags : List String) :
    Option NutritionFacts :=
  some (bread_core (pyLower name))

/-- Function `estimate_dessert_nutrition` (no serving-size parsing in the source). -/
def dessert_core (name_lower : String) (tags : List String) : NutritionFacts :=
  let nutr := create_base_nutrition
  let is_vegan := tags.contains "vegan"
  if strContains name_lower "cake" then
    let nutr :=
      { nutr with
          calories := 350
          total_fat_g := 16
          saturated_fat_g := 4
          total_carbs_g := 48
          sugars_g := 32
          sodium_mg := 350
          protein_g := 4 }
    if strContains name_lower "chocolate" then
      { nutr with
          calories := 380
          total_fat_g := 18
          sugars_g := 36 }
    else nutr
  else if strContains name_lower "pie" then
    let nutr :=
      { nutr with
          calories := 320
          total_fat_g := 14
          saturated_fat_g := 4
          total_carbs_g := 45
          sugars_g := 24
          sodium_mg := 280
          protein_g := 3 }
    if is_vegan then
      { nutr with
          cholesterol_mg := 0
          total_fat_g := 12 }
    else nutr
  else if strContains name_lower "crisp" then
    let nutr :=
      { nutr with
          calories := 280
          total_fat_g := 10
          total_carbs_g := 45
          sugars_g := 28
          dietary_fiber_g := 3
          sodium_mg := 150 }
    if is_vegan then
      { nutr with cholesterol_mg := 0 }
    else nutr
  else if strContains name_lower "quiche" then
    { nutr with
        calories := 350
        total_fat_g := 24
        saturated_fat_g := 10
        cholesterol_mg := 165
        total_carbs_g := 18
        sodium_mg := 480
        protein_g := 14
        vitamin_a_dv := 15
        calcium_dv := 15 }
  else  -- Generic dessert
    { nutr with
        calories := 300
        total_fat_g := 12
        total_carbs_g := 42
        sugars_g := 25
        sodium_mg := 200 }

/-- Function `estimate_dessert_nutrition`. -/
def estimate_dessert_nutrition (name serving_size : String) (tags : List String) :
    Option NutritionFacts :=
  some (dessert_core (pyLower name) tags)

/-- Body of `estimate_sauce_nutrition` after serving-size parsing. -/
def sauce_core (name_lower : String) (amount : ℚ) (unit : String) : NutritionFacts :=
  let nutr := create_base_nutrition
  let oz := if unit = "oz" then amount else 3
  if strContains name_lower "marinara" ∨ strContains name_lower "tomato" then
    { nutr with
        calories := pyInt (15 * oz)
        total_carbs_g := pyInt (3 * oz / 3)
        sugars_g := pyInt (2 * oz / 3)
        sodium_mg := pyInt (150 * oz)
        vitamin_a_dv := 5
        vitamin_c_dv := 8 }
  else  -- Generic sauce
    { nutr with
        calories := pyInt (20 * oz)
        total_carbs_g := pyInt (3 * oz / 3)
        sodium_mg := pyInt (180 * oz) }

/-- Function `estimate_sauce_nutrition`. -/
def estimate_sauce_nutrition (name serving_size : String) (tags : List String) :
    Option NutritionFacts :=
  (parse_serving_size serving_size).map fun p => sauce_core (pyLower name) p.1 p.2

/-- Body of `estimate_sushi_nutrition` after serving-size parsing. -/
def sushi_core (amount : ℚ) (unit : String) (tags : List String) : NutritionFacts :=
  let nutr := create_base_nutrition
  let pieces := if strContains unit "piece" then amount else 3
  let is_vegan := tags.contains "vegan"
  let nutr :=
    { nutr with
        calories := pyInt (40 * pieces)
        total_fat_g := pyRound1 (1 * pieces)
        total_carbs_g := pyInt (7 * pieces)
        sodium_mg := pyInt (100 * pieces)
        protein_g := (pyRound (2 * pieces) : ℚ) }
  if !is_vegan then
    { nutr with
        protein_g := (pyRound (3 * pieces) : ℚ)
        cholesterol_mg := pyInt (10 * pieces) }
  else nutr

/-- Function `estimate_sushi_nutrition`. -/
def estimate_sushi_nutrition (name serving_size : String) (tags : List String) :
    Option NutritionFacts :=
  (parse_serving_size serving_size).map fun p => sushi_core p.1 p.2 tags

/-- Body of `estimate_pad_thai_nutrition` after serving-size parsing. -/
def pad_thai_core (name_lower : String) (amount : ℚ) (unit : String) (tags : List String) :
    NutritionFacts :=
  let nutr := create_base_nutrition
  let is_vegan := tags.contains "vegan"
  let has_nuts := tags.contains "contains_nuts"
  -- Base pad thai per 10 oz serving
  let multiplier :=
    if unit = "oz" then amount / 10
    else if unit = "cup" then amount
    else 1
  -- Base vegetable pad thai
  let nutr :=
    { nutr with
        calories := pyInt (380 * multiplier)
        total_fat_g := pyRound1 (12 * multiplier)
        saturated_fat_g := pyRound1 (2 * multiplier)
        total_carbs_g := pyInt (55 * multiplier)
        sugars_g := pyInt (8 * multiplier)
        dietary_fiber_g := pyRound1 (3 * multiplier)
        sodium_mg := pyInt (800 * multiplier)
        protein_g := (pyRound (10 * multiplier) : ℚ)
        vitamin_a_dv := pyInt (6 * multiplier)
        vitamin_c_dv := pyInt (10 * multiplier)
        iron_dv := pyInt (10 * multiplier) }
  let nutr :=
    if strContains name_lower "chicken" then
      { nutr with
          protein_g := (pyRound (22 * multiplier) : ℚ)
          calories := pyInt (450 * multiplier)
          cholesterol_mg := pyInt (65 * multiplier)
          total_fat_g := pyRound1 (14 * multiplier) }
    else nutr
  let nutr :=
    if is_vegan then
      { nutr with cholesterol_mg := 0 }
    else nutr
  if has_nuts then
    { nutr with
        calories := nutr.calories + pyInt (50 * multiplier)
        total_fat_g := pyRound1 (nutr.total_fat_g + 4 * multiplier)
        protein_g := nutr.protein_g + (pyRound (2 * multiplier) : ℚ) }
  else nutr

/-- Function `estimate_pad_thai_nutrition`. -/
def estimate_pad_thai_nutrition (name serving_size : String) (tags : List String) :
    Option NutritionFacts :=
  (parse_serving_size serving_size).map fun p => pad_thai_core (pyLower name) p.1 p.2 tags

/-! ### `categorize_food`, the estimator registry, and the pipeline -/

/-- Protein keywords (rule 2 of `categorize_food`). -/
def protein_kws : List String :=
  ["chicken", "salmon", "pork", "beef", "fish", "meat", "calamari", "pepperoni"]

/-- Starch keywords (rule 3 of `categorize_food`). -/
def starch_kws : List String :=
  ["rice", "pasta", "spaghetti", "potato", "quinoa", "tortilla", "spirals", "farfalle"]

/-- Vegetable keywords (rule 4 of `categorize_food`). -/
def vegetable_kws : List String :=
  ["broccoli", "cauliflower", "carrot", "green bean", "spinach", "cabbage",
   "vegetable", "bean sprout"]

/-- Function `categorize_food` (its `tags` parameter is unused in the source, so it
is dropped here).  The second `pad thai` test before the `generic` fallback
is in the source and is kept, although it is unreachable. -/
def categorize_food (name : String) : String :=
  let name_lower := pyLower name
  if strContains name_lower "pad thai" then "pad_thai"
  else if protein_kws.any (fun x => strContains name_lower x) then "protein"
  else if starch_kws.any (fun x => strContains name_lower x) then "starch"
  else if vegetable_kws.any (fun x => strContains name_lower x) then "vegetable"
  else if ["soup", "chili"].any (fun x => strContains name_lower x) then "soup"
  else if strContains name_lower "pizza" then "pizza"
  else if ["burrito", "taco", "salsa"].any (fun x => strContains name_lower x) then "mexican"
  else if strContains name_lower "bean" && !strContains name_lower "green" then "beans"
  else if strContains name_lower "salad" then "salad"
  else if ["bread", "breadstick"].any (fun x => strContains name_lower x) then "bread"
  else if ["cake", "pie", "cookie", "crisp", "quiche"].any
      (fun x => strContains name_lower x) then "dessert"
  else if ["sauce", "marinara"].any (fun x => strContains name_lower x) then "sauce"
  else if strContains name_lower "roll" then "sushi"
  else if strContains name_lower "pad thai" then "pad_thai"
  else "generic"

/-- The `estimators` dict lookup `estimators.get(food_category,
estimate_vegetable_nutrition)` of `estimate_nutrition`. -/
def run_estimator (food_category : String) (name serving_size : String)
    (tags : List String) : Option NutritionFacts :=
  if food_category = "protein" then estimate_protein_nutrition name serving_size tags
  else if food_category = "starch" then estimate_starch_nutrition name serving_size tags
  else if food_category = "vegetable" then estimate_vegetable_nutrition name serving_size tags
  else if food_category = "soup" then estimate_soup_nutrition name serving_size tags
  else if food_category = "pizza" then estimate_pizza_nutrition name serving_size tags
  else if food_category = "mexican" then estimate_mexican_nutrition name serving_size tags
  else if food_category = "beans" then estimate_beans_nutrition name serving_size tags
  else if food_category = "salad" then estimate_salad_nutrition name serving_size tags
  else if food_category = "bread" then estimate_bread_nutrition name serving_size tags
  else if food_category = "dessert" then estimate_dessert_nutrition name serving_size tags
  else if food_category = "sauce" then estimate_sauce_nutrition name serving_size tags
  else if food_category = "sushi" then estimate_sushi_nutrition name serving_size tags
  else if food_category = "pad_thai" then estimate_pad_thai_nutrition name serving_size tags
  else estimate_vegetable_nutrition name serving_size tags

/-- The normalization tail of `estimate_nutrition`: daily-value
percentages, calories from fat, the `int(...)` coercions (identities on
the `ℤ`-typed fields, kept where they act on a field the source could have
set to a fraction) and the one-decimal rounding pass. -/
def normalize_nutrition (nutr : NutritionFacts) : NutritionFacts :=
  { nutr with
      total_fat_dv := calc_dv_percent nutr.total_fat_g (DAILY_VALUES "total_fat")
      saturated_fat_dv := calc_dv_percent nutr.saturated_fat_g (DAILY_VALUES "saturated_fat")
      cholesterol_dv := calc_dv_percent (nutr.cholesterol_mg : ℚ) (DAILY_VALUES "cholesterol")
      sodium_dv := calc_dv_percent (nutr.sodium_mg : ℚ) (DAILY_VALUES "sodium")
      total_carbs_dv := calc_dv_percent (nutr.total_carbs_g : ℚ) (DAILY_VALUES "total_carbs")
      dietary_fiber_dv := calc_dv_percent nutr.dietary_fiber_g (DAILY_VALUES "dietary_fiber")
      calories_from_fat := pyInt ((pyInt (nutr.total_fat_g * 9) : ℤ) : ℚ)
      protein_g := ((pyInt nutr.protein_g : ℤ) : ℚ)
      total_fat_g := pyRound1 nutr.total_fat_g
      saturated_fat_g := pyRound1 nutr.saturated_fat_g
      trans_fat_g := pyRound1 nutr.trans_fat_g
      dietary_fiber_g := pyRound1 nutr.dietary_fiber_g }

/-- Function `estimate_nutrition`: categorize, dispatch, normalize. -/
def estimate_nutrition (name serving_size : String) (tags : List String) :
    Option NutritionFacts :=
  let food_category := categorize_food name
  (run_estimator food_category name serving_size tags).map normalize_nutrition

/-- The per-item body of `process_menu_data`: `item["name"]` and
`item["serving_size"]` raise `KeyError` when absent (`none`), while
`dietary_tags` is read with `item.get("dietary_tags", [])`. -/
def process_menu_item (name_field serving_field : Option String)
    (tags_field : Option (List String)) : Option NutritionFacts :=
  match name_field, serving_field with
  | some name, some serving_size =>
      estimate_nutrition name serving_size (tags_field.getD [])
  | _, _ => none

/-! ### Arithmetic facts about the Python primitives -/

theorem pyRound_intCast (k : ℤ) : pyRound (k : ℚ) = k := by
  unfold pyRound
  rw [Int.floor_intCast]
  norm_num

theorem pyInt_intCast (k : ℤ) : pyInt (k : ℚ) = k := by
  unfold pyInt
  split_ifs with h
  · rw [← Int.cast_neg, Int.floor_intCast, neg_neg]
  · exact Int.floor_intCast k

theorem pyRound_add_two_mul (q : ℚ) (m : ℤ) :
    pyRound (q + ((2 * m : ℤ) : ℚ)) = pyRound q + 2 * m := by
  unfold pyRound
  rw [Int.floor_add_int]
  have h1 : q + ((2 * m : ℤ) : ℚ) - ((⌊q⌋ + 2 * m : ℤ) : ℚ) = q - ⌊q⌋ := by
    push_cast
    ring
  have h2 : (⌊q⌋ + 2 * m) % 2 = ⌊q⌋ % 2 := by omega
  rw [h1, h2]
  split_ifs <;> ring

/-- Predicate: `q` is representable with one decimal digit. -/
def Dec1 (q : ℚ) : Prop := (10 * q).den = 1

instance (q : ℚ) : Decidable (Dec1 q) := by unfold Dec1; infer_instance

theorem dec1_iff {q : ℚ} : Dec1 q ↔ ∃ k : ℤ, q = (k : ℚ) / 10 := by
  constructor
  · intro h
    exact ⟨(10 * q).num, by rw [Rat.coe_int_num_of_den_eq_one h]; ring⟩
  · rintro ⟨k, rfl⟩
    unfold Dec1
    rw [show (10 : ℚ) * ((k : ℚ) / 10) = (k : ℚ) by ring]
    exact Rat.den_intCast k

theorem dec1_pyRound1 (q : ℚ) : Dec1 (pyRound1 q) :=
  dec1_iff.mpr ⟨pyRound (10 * q), rfl⟩

theorem dec1_add {a b : ℚ} (ha : Dec1 a) (hb : Dec1 b) : Dec1 (a + b) := by
  obtain ⟨j, rfl⟩ := dec1_iff.mp ha
  obtain ⟨k, rfl⟩ := dec1_iff.mp hb
  exact dec1_iff.mpr ⟨j + k, by push_cast; ring⟩

theorem pyRound1_fix {q : ℚ} (h : Dec1 q) : pyRound1 q = q := by
  obtain ⟨k, rfl⟩ := dec1_iff.mp h
  unfold pyRound1
  rw [show (10 : ℚ) * ((k : ℚ) / 10) = (k : ℚ) by ring, pyRound_intCast]

theorem pyRound1_add_int (q : ℚ) (k : ℤ) : pyRound1 (q + (k : ℚ)) = pyRound1 q + k := by
  unfold pyRound1
  rw [show (10 : ℚ) * (q + (k : ℚ)) = 10 * q + ((2 * (5 * k) : ℤ) : ℚ) by push_cast; ring,
    pyRound_add_two_mul]
  push_cast
  ring

/-! ### Invariants of the estimator drafts -/

/-- Invariant satisfied by every draft an estimator can produce: the four
gram fields carry at most one decimal, and the only extra dict key ever
inserted is `potassium_mg = 926`. -/
def DraftOK (r : NutritionFacts) : Prop :=
  Dec1 r.total_fat_g ∧ Dec1 r.saturated_fat_g ∧ Dec1 r.trans_fat_g ∧
    Dec1 r.dietary_fiber_g ∧ (r.potassium_mg = none ∨ r.potassium_mg = some 926)

set_option maxHeartbeats 2000000 in
theorem protein_core_ok (nl : String) (a : ℚ) (u : String) :
    DraftOK (protein_core nl a u) := by
  unfold DraftOK protein_core create_base_nutrition
  dsimp only
  split_ifs <;> dsimp only <;>
    refine ⟨?_, ?_, ?_, ?_, ?_⟩ <;>
      first
        | exact Or.inl rfl
        | exact Or.inr rfl
        | exact dec1_pyRound1 _
        | (unfold Dec1; norm_num; done)
        | (refine dec1_add ?_ ?_ <;>
            first
              | exact dec1_pyRound1 _
              | (unfold Dec1; norm_num; done)
              | (refine dec1_add ?_ ?_ <;>
                  first
                    | exact dec1_pyRound1 _
                    | (unfold Dec1; norm_num; done)))

set_option maxHeartbeats 2000000 in
theorem starch_core_ok (nl : String) (a : ℚ) (u : String) (tags : List String) :
    DraftOK (starch_core nl a u tags) := by
  unfold DraftOK starch_core create_base_nutrition
  dsimp only
  split_ifs <;> dsimp only <;>
    refine ⟨?_, ?_, ?_, ?_, ?_⟩ <;>
      first
        | exact Or.inl rfl
        | exact Or.inr rfl
        | exact dec1_pyRound1 _
        | (unfold Dec1; norm_num; done)
        | (refine dec1_add ?_ ?_ <;>
            first
              | exact dec1_pyRound1 _
              | (unfold Dec1; norm_num; done)
              | (refine dec1_add ?_ ?_ <;>
                  first
                    | exact dec1_pyRound1 _
                    | (unfold Dec1; norm_num; done)))

set_option maxHeartbeats 2000000 in
theorem vegetable_core_ok (nl : String) (a : ℚ) (u : String) (tags : List String) :
    DraftOK (vegetable_core nl a u tags) := by
  unfold DraftOK vegetable_core create_base_nutrition
  dsimp only
  split_ifs <;> dsimp only <;>
    refine ⟨?_, ?_, ?_, ?_, ?_⟩ <;>
      first
        | exact Or.inl rfl
        | exact Or.inr rfl
        | exact dec1_pyRound1 _
        | (unfold Dec1; norm_num; done)
        | (refine dec1_add ?_ ?_ <;>
            first
              | exact dec1_pyRound1 _
              | (unfold Dec1; norm_num; done)
              | (refine dec1_add ?_ ?_ <;>
                  first
                    | exact dec1_pyRound1 _
                    | (unfold Dec1; norm_num; done)))

set_option maxHeartbeats 2000000 in
theorem soup_core_ok (nl : String) (a : ℚ) (u : String) :
    DraftOK (soup_core nl a u) := by
  unfold DraftOK soup_core create_base_nutrition
  dsimp only
  split_ifs <;> dsimp only <;>
    refine ⟨?_, ?_, ?_, ?_, ?_⟩ <;>
      first
        | exact Or.inl rfl
        | exact Or.inr rfl
        | exact dec1_pyRound1 _
        | (unfold Dec1; norm_num; done)
        | (refine dec1_add ?_ ?_ <;>
            first
              | exact dec1_pyRound1 _
              | (unfold Dec1; norm_num; done)
              | (refine dec1_add ?_ ?_ <;>
                  first
                    | exact dec1_pyRound1 _
                    | (unfold Dec1; norm_num; done)))

set_option maxHeartbeats 2000000 in
theorem pizza_core_ok (nl : String) :
    DraftOK (pizza_core nl) := by
  unfold DraftOK pizza_core create_base_nutrition
  dsimp only
  split_ifs <;> dsimp only <;>
    refine ⟨?_, ?_, ?_, ?_, ?_⟩ <;>
      first
        | exact Or.inl rfl
        | exact Or.inr rfl
        | exact dec1_pyRound1 _
        | (unfold Dec1; norm_num; done)
        | (refine dec1_add ?_ ?_ <;>
            first
              | exact dec1_pyRound1 _
              | (unfold Dec1; norm_num; done)
              | (refine dec1_add ?_ ?_ <;>
                  first
                    | exact dec1_pyRound1 _
                    | (unfold Dec1; norm_num; done)))

set_option maxHeartbeats 2000000 in
theorem mexican_core_ok (nl : String) (tags : List String) :
    DraftOK (mexican_core nl tags) := by
  unfold DraftOK mexican_core create_base_nutrition
  dsimp only
  split_ifs <;> dsimp only <;>
    refine ⟨?_, ?_, ?_, ?_, ?_⟩ <;>
      first
        | exact Or.inl rfl
        | exact Or.inr rfl
        | exact dec1_pyRound1 _
        | (unfold Dec1; norm_num; done)
        | (refine dec1_add ?_ ?_ <;>
            first
              | exact dec1_pyRound1 _
              | (unfold Dec1; norm_num; done)
              | (refine dec1_add ?_ ?_ <;>
                  first
                    | exact dec1_pyRound1 _
                    | (unfold Dec1; norm_num; done)))

set_option maxHeartbeats 2000000 in
theorem beans_core_ok (nl : String) (a : ℚ) (u : String) :
    DraftOK (beans_core nl a u) := by
  unfold DraftOK beans_core create_base_nutrition
  dsimp only
  split_ifs <;> dsimp only <;>
    refine ⟨?_, ?_, ?_, ?_, ?_⟩ <;>
      first
        | exact Or.inl rfl
        | exact Or.inr rfl
        | exact dec1_pyRound1 _
        | (unfold Dec1; norm_num; done)
        | (refine dec1_add ?_ ?_ <;>
            first
              | exact dec1_pyRound1 _
              | (unfold Dec1; norm_num; done)
              | (refine dec1_add ?_ ?_ <;>
                  first
                    | exact dec1_pyRound1 _
                    | (unfold Dec1; norm_num; done)))

set_option maxHeartbeats 2000000 in
theorem salad_core_ok (nl : String) (a : ℚ) (u : String) (tags : List String) :
    DraftOK (salad_core nl a u tags) := by
  unfold DraftOK salad_core salad_core_base create_base_nutrition
  dsimp only
  split_ifs <;> dsimp only <;>
    refine ⟨?_, ?_, ?_, ?_, ?_⟩ <;>
      first
        | exact Or.inl rfl
        | exact Or.inr rfl
        | exact dec1_pyRound1 _
        | (unfold Dec1; norm_num; done)
        | (refine dec1_add ?_ ?_ <;>
            first
              | exact dec1_pyRound1 _
              | (unfold Dec1; norm_num; done)
              | (refine dec1_add ?_ ?_ <;>
                  first
                    | exact dec1_pyRound1 _
                    | (unfold Dec1; norm_num; done)))

set_option maxHeartbeats 2000000 in
theorem bread_core_ok (nl : String) :
    DraftOK (bread_core nl) := by
  unfold DraftOK bread_core create_base_nutrition
  dsimp only
  split_ifs <;> dsimp only <;>
    refine ⟨?_, ?_, ?_, ?_, ?_⟩ <;>
      first
        | exact Or.inl rfl
        | exact Or.inr rfl
        | exact dec1_pyRound1 _
        | (unfold Dec1; norm_num; done)
        | (refine dec1_add ?_ ?_ <;>
            first
              | exact dec1_pyRound1 _
              | (unfold Dec1; norm_num; done)
              | (refine dec1_add ?_ ?_ <;>
                  first
                    | exact dec1_pyRound1 _
                    | (unfold Dec1; norm_num; done)))

set_option maxHeartbeats 2000000 in
theorem dessert_core_ok (nl : String) (tags : List String) :
    DraftOK (dessert_core nl tags) := by
  unfold DraftOK dessert_core create_base_nutrition
  dsimp only
  split_ifs <;> dsimp only <;>
    refine ⟨?_, ?_, ?_, ?_, ?_⟩ <;>
      first
        | exact Or.inl rfl
        | exact Or.inr rfl
        | exact dec1_pyRound1 _
        | (unfold Dec1; norm_num; done)
        | (refine dec1_add ?_ ?_ <;>
            first
              | exact dec1_pyRound1 _
              | (unfold Dec1; norm_num; done)
              | (refine dec1_add ?_ ?_ <;>
                  first
                    | exact dec1_pyRound1 _
                    | (unfold Dec1; norm_num; done)))

set_option maxHeartbeats 2000000 in
theorem sauce_core_ok (nl : String) (a : ℚ) (u : String) :
    DraftOK (sauce_core nl a u) := by
  unfold DraftOK sauce_core create_base_nutrition
  dsimp only
  split_ifs <;> dsimp only <;>
    refine ⟨?_, ?_, ?_, ?_, ?_⟩ <;>
      first
        | exact Or.inl rfl
        | exact Or.inr rfl
        | exact dec1_pyRound1 _
        | (unfold Dec1; norm_num; done)
        | (refine dec1_add ?_ ?_ <;>
            first
              | exact dec1_pyRound1 _
              | (unfold Dec1; norm_num; done)
              | (refine dec1_add ?_ ?_ <;>
                  first
                    | exact dec1_pyRound1 _
                    | (unfold Dec1; norm_num; done)))

set_option maxHeartbeats 2000000 in
theorem sushi_core_ok (a : ℚ) (u : String) (tags : List String) :
    DraftOK (sushi_core a u tags) := by
  unfold DraftOK sushi_core create_base_nutrition
  dsimp only
  split_ifs <;> dsimp only <;>
    refine ⟨?_, ?_, ?_, ?_, ?_⟩ <;>
      first
        | exact Or.inl rfl
        | exact Or.inr rfl
        | exact dec1_pyRound1 _
        | (unfold Dec1; norm_num; done)
        | (refine dec1_add ?_ ?_ <;>
            first
              | exact dec1_pyRound1 _
              | (unfold Dec1; norm_num; done)
              | (refine dec1_add ?_ ?_ <;>
                  first
                    | exact dec1_pyRound1 _
                    | (unfold Dec1; norm_num; done)))

set_option maxHeartbeats 2000000 in
theorem pad_thai_core_ok (nl : String) (a : ℚ) (u : String) (tags : List String) :
    DraftOK (pad_thai_core nl a u tags) := by
  unfold DraftOK pad_thai_core create_base_nutrition
  dsimp only
  split_ifs <;> dsimp only <;>
    refine ⟨?_, ?_, ?_, ?_, ?_⟩ <;>
      first
        | exact Or.inl rfl
        | exact Or.inr rfl
        | exact dec1_pyRound1 _
        | (unfold Dec1; norm_num; done)
        | (refine dec1_add ?_ ?_ <;>
            first
              | exact dec1_pyRound1 _
              | (unfold Dec1; norm_num; done)
              | (refine dec1_add ?_ ?_ <;>
                  first
                    | exact dec1_pyRound1 _
                    | (unfold Dec1; norm_num; done)))

theorem estimate_protein_ok (n s : String) (t : List String) (r : NutritionFacts)
    (h : estimate_protein_nutrition n s t = some r) : DraftOK r := by
  unfold estimate_protein_nutrition at h
  rw [Option.map_eq_some'] at h
  obtain ⟨p, hp, rfl⟩ := h
  exact protein_core_ok _ _ _

theorem estimate_starch_ok (n s : String) (t : List String) (r : NutritionFacts)
    (h : estimate_starch_nutrition n s t = some r) : DraftOK r := by
  unfold estimate_starch_nutrition at h
  rw [Option.map_eq_some'] at h
  obtain ⟨p, hp, rfl⟩ := h
  exact starch_core_ok _ _ _ _

theorem estimate_vegetable_ok (n s : String) (t : List String) (r : NutritionFacts)
    (h : estimate_vegetable_nutrition n s t = some r) : DraftOK r := by
  unfold estimate_vegetable_nutrition at h
  rw [Option.map_eq_some'] at h
  obtain ⟨p, hp, rfl⟩ := h
  exact vegetable_core_ok _ _ _ _

theorem estimate_soup_ok (n s : String) (t : List String) (r : NutritionFacts)
    (h : estimate_soup_nutrition n s t = some r) : DraftOK r := by
  unfold estimate_soup_nutrition at h
  rw [Option.map_eq_some'] at h
  obtain ⟨p, hp, rfl⟩ := h
  exact soup_core_ok _ _ _

theorem estimate_beans_ok (n s : String) (t : List String) (r : NutritionFacts)
    (h : estimate_beans_nutrition n s t = some r) : DraftOK r := by
  unfold estimate_beans_nutrition at h
  rw [Option.map_eq_some'] at h
  obtain ⟨p, hp, rfl⟩ := h
  exact beans_core_ok _ _ _

theorem estimate_salad_ok (n s : String) (t : List String) (r : NutritionFacts)
    (h : estimate_salad_nutrition n s t = some r) : DraftOK r := by
  unfold estimate_salad_nutrition at h
  rw [Option.map_eq_some'] at h
  obtain ⟨p, hp, rfl⟩ := h
  exact salad_core_ok _ _ _ _

theorem estimate_sauce_ok (n s : String) (t : List String) (r : NutritionFacts)
    (h : estimate_sauce_nutrition n s t = some r) : DraftOK r := by
  unfold estimate_sauce_nutrition at h
  rw [Option.map_eq_some'] at h
  obtain ⟨p, hp, rfl⟩ := h
  exact sauce_core_ok _ _ _

theorem estimate_sushi_ok (n s : String) (t : List String) (r : NutritionFacts)
    (h : estimate_sushi_nutrition n s t = some r) : DraftOK r := by
  unfold estimate_sushi_nutrition at h
  rw [Option.map_eq_some'] at h
  obtain ⟨p, hp, rfl⟩ := h
  exact sushi_core_ok _ _ _

theorem estimate_pad_thai_ok (n s : String) (t : List String) (r : NutritionFacts)
    (h : estimate_pad_thai_nutrition n s t = some r) : DraftOK r := by
  unfold estimate_pad_thai_nutrition at h
  rw [Option.map_eq_some'] at h
  obtain ⟨p, hp, rfl⟩ := h
  exact pad_thai_core_ok _ _ _ _

theorem estimate_pizza_ok (n s : String) (t : List String) (r : NutritionFacts)
    (h : estimate_pizza_nutrition n s t = some r) : DraftOK r := by
  unfold estimate_pizza_nutrition at h
  rw [Option.some.injEq] at h
  rw [← h]
  exact pizza_core_ok _

theorem estimate_mexican_ok (n s : String) (t : List String) (r : NutritionFacts)
    (h : estimate_mexican_nutrition n s t = some r) : DraftOK r := by
  unfold estimate_mexican_nutrition at h
  rw [Option.some.injEq] at h
  rw [← h]
  exact mexican_core_ok _ _

theorem estimate_bread_ok (n s : String) (t : List String) (r : NutritionFacts)
    (h : estimate_bread_nutrition n s t = some r) : DraftOK r := by
  unfold estimate_bread_nutrition at h
  rw [Option.some.injEq] at h
  rw [← h]
  exact bread_core_ok _

theorem estimate_dessert_ok (n s : String) (t : List String) (r : NutritionFacts)
    (h : estimate_dessert_nutrition n s t = some r) : DraftOK r := by
  unfold estimate_dessert_nutrition at h
  rw [Option.some.injEq] at h
  rw [← h]
  exact dessert_core_ok _ _

theorem run_estimator_ok (c n s : String) (t : List String) (r : NutritionFacts)
    (h : run_estimator c n s t = some r) : DraftOK r := by
  unfold run_estimator at h
  by_cases h0 : c = "protein"
  · rw [if_pos h0] at h
    exact estimate_protein_ok n s t r h
  rw [if_neg h0] at h
  by_cases h1 : c = "starch"
  · rw [if_pos h1] at h
    exact estimate_starch_ok n s t r h
  rw [if_neg h1] at h
  by_cases h2 : c = "vegetable"
  · rw [if_pos h2] at h
    exact estimate_vegetable_ok n s t r h
  rw [if_neg h2] at h
  by_cases h3 : c = "soup"
  · rw [if_pos h3] at h
    exact estimate_soup_ok n s t r h
  rw [if_neg h3] at h
  by_cases h4 : c = "pizza"
  · rw [if_pos h4] at h
    exact estimate_pizza_ok n s t r h
  rw [if_neg h4] at h
  by_cases h5 : c = "mexican"
  · rw [if_pos h5] at h
    exact estimate_mexican_ok n s t r h
  rw [if_neg h5] at h
  by_cases h6 : c = "beans"
  · rw [if_pos h6] at h
    exact estimate_beans_ok n s t r h
  rw [if_neg h6] at h
  by_cases h7 : c = "salad"
  · rw [if_pos h7] at h
    exact estimate_salad_ok n s t r h
  rw [if_neg h7] at h
  by_cases h8 : c = "bread"
  · rw [if_pos h8] at h
    exact estimate_bread_ok n s t r h
  rw [if_neg h8] at h
  by_cases h9 : c = "dessert"
  · rw [if_pos h9] at h
    exact estimate_dessert_ok n s t r h
  rw [if_neg h9] at h
  by_cases h10 : c = "sauce"
  · rw [if_pos h10] at h
    exact estimate_sauce_ok n s t r h
  rw [if_neg h10] at h
  by_cases h11 : c = "sushi"
  · rw [if_pos h11] at h
    exact estimate_sushi_ok n s t r h
  rw [if_neg h11] at h
  by_cases h12 : c = "pad_thai"
  · rw [if_pos h12] at h
    exact estimate_pad_thai_ok n s t r h
  rw [if_neg h12] at h
  exact estimate_vegetable_ok n s t r h

/-- Every emitted record is the normalization of a draft satisfying
`DraftOK`. -/
theorem estimate_nutrition_shape (n s : String) (t : List String) (r : NutritionFacts)
    (h : estimate_nutrition n s t = some r) :
    ∃ d, DraftOK d ∧ run_estimator (categorize_food n) n s t = some d ∧
      r = normalize_nutrition d := by
  unfold estimate_nutrition at h
  rw [Option.map_eq_some'] at h
  obtain ⟨d, hd, rfl⟩ := h
  exact ⟨d, run_estimator_ok _ _ _ _ _ hd, hd, rfl⟩


/-! ### Daily-value table entries -/

theorem DV_total_fat : DAILY_VALUES "total_fat" = 65 := rfl

theorem DV_saturated_fat : DAILY_VALUES "saturated_fat" = 20 := rfl

theorem DV_cholesterol : DAILY_VALUES "cholesterol" = 300 := rfl

theorem DV_sodium : DAILY_VALUES "sodium" = 2400 := rfl

theorem DV_total_carbs : DAILY_VALUES "total_carbs" = 300 := rfl

theorem DV_dietary_fiber : DAILY_VALUES "dietary_fiber" = 25 := rfl

/-! ### Claim C1 -/

/-- C1 counterexample: the code computes `calories_from_fat` with Python
`int()` (truncation), not `round`.  For "Flour Tortilla" the emitted
total fat is 3.5 g and the emitted `calories_from_fat` is `int(31.5) = 31`,
while `round(3.5 * 9) = 32`, so the claimed identity
`calories_from_fat = round(total_fat_g * 9)` fails on this item. -/
theorem c1_counterexample :
    (estimate_nutrition "Flour Tortilla" "tortilla" []).map
        (fun r => (r.calories_from_fat, r.total_fat_g)) = some (31, 7 / 2) ∧
    pyRound ((7 / 2 : ℚ) * 9) = 32 := by
  constructor
  · have h2 : starch_core "flour tortilla" 1 "tortilla" [] =
        { create_base_nutrition with
            calories := 140
            total_fat_g := 3.5
            total_carbs_g := 24
            sodium_mg := 340
            protein_g := 4 } := rfl
    show some ((normalize_nutrition (starch_core "flour tortilla" 1 "tortilla" [])).calories_from_fat,
      (normalize_nutrition (starch_core "flour tortilla" 1 "tortilla" [])).total_fat_g) =
        some (31, 7 / 2)
    rw [h2]
    unfold normalize_nutrition create_base_nutrition
    dsimp only
    rw [show ((3.5 : ℚ) * 9) = 63 / 2 by norm_num]
    rw [show pyInt (63 / 2) = 31 by unfold pyInt; rw [if_neg (by norm_num)]; norm_num]
    rw [pyInt_intCast]
    rw [show pyRound1 3.5 = 7 / 2 by
      unfold pyRound1
      rw [show (10 : ℚ) * 3.5 = ((35 : ℤ) : ℚ) by norm_num, pyRound_intCast]
      norm_num]
  · unfold pyRound
    rw [show ((7 / 2 : ℚ) * 9) = 63 / 2 by norm_num]
    rw [show ⌊(63 / 2 : ℚ)⌋ = 31 by norm_num]
    norm_num

/-- C1 (amended): for every emitted record, `calories_from_fat` equals the
*truncation* `int(total_fat_g * 9)` of nine times the emitted (final,
one-decimal) total fat — truncation toward zero, not rounding to nearest. -/
theorem c1_amended (n s : String) (t : List String) (r : NutritionFacts)
    (h : estimate_nutrition n s t = some r) :
    r.calories_from_fat = pyInt (r.total_fat_g * 9) := by
  obtain ⟨d, hok, _, rfl⟩ := estimate_nutrition_shape n s t r h
  unfold normalize_nutrition
  dsimp only
  rw [pyRound1_fix hok.1, pyInt_intCast]

/-- C1 witness: the amended identity, instantiated at "Flour Tortilla". -/
theorem c1_witness :
    (normalize_nutrition (starch_core "flour tortilla" 1 "tortilla" [])).calories_from_fat =
      pyInt ((normalize_nutrition (starch_core "flour tortilla" 1 "tortilla" [])).total_fat_g * 9) :=
  c1_amended "Flour Tortilla" "tortilla" []
    (normalize_nutrition (starch_core "flour tortilla" 1 "tortilla" [])) rfl


/-! ### Claim C2 -/

/-- C2 counterexample: the emitted record is not always exactly the 21
contract fields — the baked-potato branch of the starch estimator inserts
a 22nd key `potassium_mg = 926`, which survives into the output. -/
theorem c2_counterexample :
    (estimate_nutrition "Baked Potato" "each" []).map (fun r => r.potassium_mg) =
      some (some 926) := rfl

/-- C2 (amended): every emitted record carries the 21 contract fields with
the stated numeric types — the whole-number fields are integers (in this
embedding by the `ℤ` typing of those fields, and `protein_g`, which the
corn-tortilla branch can set to 1.5, has integer denominator after the
final `int()` coercion), and the four gram fields carry one decimal —
but a record produced through the starch estimator's baked-potato branch
additionally carries the extra field `potassium_mg = 926`. -/
theorem c2_amended (n s : String) (t : List String) (r : NutritionFacts)
    (h : estimate_nutrition n s t = some r) :
    Dec1 r.total_fat_g ∧ Dec1 r.saturated_fat_g ∧ Dec1 r.trans_fat_g ∧
      Dec1 r.dietary_fiber_g ∧ r.protein_g.den = 1 ∧
      (r.potassium_mg = none ∨ r.potassium_mg = some 926) := by
  obtain ⟨d, hok, _, rfl⟩ := estimate_nutrition_shape n s t r h
  unfold normalize_nutrition
  dsimp only
  exact ⟨dec1_pyRound1 _, dec1_pyRound1 _, dec1_pyRound1 _, dec1_pyRound1 _,
    Rat.den_intCast _, hok.2.2.2.2⟩

/-- C2 witness: the amended field-shape property at "Baked Potato". -/
theorem c2_witness :
    Dec1 (normalize_nutrition (starch_core "baked potato" 1 "serving" [])).total_fat_g ∧
      Dec1 (normalize_nutrition (starch_core "baked potato" 1 "serving" [])).saturated_fat_g ∧
      Dec1 (normalize_nutrition (starch_core "baked potato" 1 "serving" [])).trans_fat_g ∧
      Dec1 (normalize_nutrition (starch_core "baked potato" 1 "serving" [])).dietary_fiber_g ∧
      (normalize_nutrition (starch_core "baked potato" 1 "serving" [])).protein_g.den = 1 ∧
      ((normalize_nutrition (starch_core "baked potato" 1 "serving" [])).potassium_mg = none ∨
        (normalize_nutrition (starch_core "baked potato" 1 "serving" [])).potassium_mg = some 926) :=
  c2_amended "Baked Potato" "serving" []
    (normalize_nutrition (starch_core "baked potato" 1 "serving" [])) rfl


/-! ### Claim C3 -/

/-- Dispatch facts about the estimator registry. -/
theorem run_estimator_dessert (n s : String) (t : List String) :
    run_estimator "dessert" n s t = estimate_dessert_nutrition n s t := rfl

theorem run_estimator_salad (n s : String) (t : List String) :
    run_estimator "salad" n s t = estimate_salad_nutrition n s t := rfl

theorem run_estimator_generic (n s : String) (t : List String) :
    run_estimator "generic" n s t = estimate_vegetable_nutrition n s t := rfl

theorem run_estimator_starch (n s : String) (t : List String) :
    run_estimator "starch" n s t = estimate_starch_nutrition n s t := rfl

/-- The quiche branch of the dessert estimator is taken exactly when the
lower-cased name contains "quiche" and none of "cake", "pie", "crisp". -/
def dessert_quiche_branch (name : String) : Bool :=
  !strContains (pyLower name) "cake" && !strContains (pyLower name) "pie" &&
    !strContains (pyLower name) "crisp" && strContains (pyLower name) "quiche"

/-- C3 counterexample: "Quiche" is categorized `dessert`, yet with the
`vegan` tag the emitted `cholesterol_mg` is 165, not 0 — the quiche branch
never applies the vegan zeroing. -/
theorem c3_counterexample :
    categorize_food "Quiche" = "dessert" ∧
    (estimate_nutrition "Quiche" "slice" ["vegan"]).map (fun r => r.cholesterol_mg) =
      some 165 := ⟨rfl, rfl⟩

/-- C3 (amended): a dessert-categorized item tagged `vegan` is emitted with
`cholesterol_mg = 0` unless the dessert estimator's quiche branch applies
(name contains "quiche" and none of "cake"/"pie"/"crisp"), in which case
`cholesterol_mg = 165`. -/
theorem c3_amended (n s : String) (t : List String) (r : NutritionFacts)
    (h1 : categorize_food n = "dessert") (h2 : t.contains "vegan" = true)
    (h : estimate_nutrition n s t = some r) :
    r.cholesterol_mg = 0 ∨ (dessert_quiche_branch n = true ∧ r.cholesterol_mg = 165) := by
  simp only [estimate_nutrition] at h
  rw [h1, run_estimator_dessert] at h
  unfold estimate_dessert_nutrition at h
  rw [Option.map_some', Option.some.injEq] at h
  subst h
  unfold normalize_nutrition
  dsimp only
  unfold dessert_core create_base_nutrition
  rw [h2]
  dsimp only
  split_ifs <;>
    first
      | exact Or.inl rfl
      | exact Or.inr ⟨by simp_all [dessert_quiche_branch], rfl⟩
      | simp_all

/-- C3 witness: the amended property at the vegan "Quiche" item. -/
theorem c3_witness :
    (normalize_nutrition (dessert_core "quiche" ["vegan"])).cholesterol_mg = 0 ∨
      (dessert_quiche_branch "Quiche" = true ∧
        (normalize_nutrition (dessert_core "quiche" ["vegan"])).cholesterol_mg = 165) :=
  c3_amended "Quiche" "slice" ["vegan"]
    (normalize_nutrition (dessert_core "quiche" ["vegan"])) rfl rfl rfl


/-! ### Claim C4 -/

/-- C4 counterexample: an item with a missing `serving_size` field is not
processed at all — `item["serving_size"]` raises `KeyError` (`none` here),
whereas the same item with `serving_size = ""` processes fine.  So a
missing field is *not* treated as the empty string. -/
theorem c4_counterexample :
    process_menu_item (some "Steamed Carrots") none (some []) = none ∧
    process_menu_item (some "Steamed Carrots") (some "") (some []) ≠ none := by
  constructor
  · rfl
  · have hval : process_menu_item (some "Steamed Carrots") (some "") (some []) =
        some (normalize_nutrition (vegetable_core "steamed carrots" 1 "serving" [])) := rfl
    rw [hval]
    exact Option.some_ne_none _

/-- C4 (amended): only a missing `dietary_tags` field is defaulted (to the
empty tag list, giving the same result as an explicit empty list); a
missing `name` or `serving_size` field raises `KeyError` and the item
produces no record.  An empty `serving_size` string does parse to the
documented defaults `(1.0, "serving")`. -/
theorem c4_amended :
    (∀ (nf sf : Option String) (tf : Option (List String)),
        process_menu_item nf sf none = process_menu_item nf sf (some []) ∧
        process_menu_item nf none tf = none ∧
        process_menu_item none sf tf = none) ∧
    parse_serving_size "" = some (1, "serving") := by
  refine ⟨fun nf sf tf => ⟨?_, ?_, ?_⟩, rfl⟩
  · cases nf <;> cases sf <;> rfl
  · cases nf <;> rfl
  · cases sf <;> rfl


/-! ### Claim C5 -/

/-- The closed unit enum of the spec. -/
def unit_enum : List String :=
  ["cup", "oz", "slice", "piece", "potato", "tortilla", "burrito", "taco",
   "quarter", "round", "serving"]

/-- No keyword of the unit-determination chain occurs in the text. -/
def no_unit_kw (s : String) : Bool :=
  !(strContains s "cup" || strContains s "oz" || strContains s "ladle" ||
    strContains s "slice" || strContains s "piece" || strContains s "potato" ||
    strContains s "tortilla" || strContains s "burrito" || strContains s "taco" ||
    strContains s "quarter" || strContains s "round" || strContains s "ounce")

set_option maxHeartbeats 1600000 in
theorem servingUnit_mem (s : String) : unit_enum.contains (servingUnit s) = true := by
  unfold servingUnit
  split_ifs <;> rfl

set_option maxHeartbeats 1600000 in
theorem servingUnit_default (s : String) (h : no_unit_kw s = true) :
    servingUnit s = "serving" := by
  unfold servingUnit
  split_ifs <;> simp_all [no_unit_kw]

theorem pyFloatOfToken_nonneg (l : List Char) (a : ℚ)
    (h : pyFloatOfToken l = some a) : 0 ≤ a := by
  unfold pyFloatOfToken at h
  split_ifs at h
  rw [Option.some.injEq] at h
  subst h
  positivity

/-- C5 counterexample: the parser is not total — on the input `"."` the
regex matches the token `"."`, and Python's `float(".")` raises
`ValueError`, so `parse_serving_size` raises instead of returning a pair. -/
theorem c5_counterexample : parse_serving_size "." = none := rfl

set_option maxHeartbeats 1600000 in
/-- C5 (amended): whenever the parser returns normally (in particular
whenever the first digit-or-dot token of the prepared text is a
well-formed numeral, and always when there is no such token), the result
is a pair with non-negative amount and unit drawn from the closed enum;
a missing numeric token defaults the amount to 1.0 and a missing unit
keyword defaults the unit to "serving".  On malformed numeric tokens such
as "." or "1.2.3" the parser raises `ValueError` instead. -/
theorem c5_amended (s : String) (a : ℚ) (u : String)
    (h : parse_serving_size s = some (a, u)) :
    0 ≤ a ∧ unit_enum.contains u = true ∧
      (firstNumToken (serving_text s) = none → a = 1) ∧
      (no_unit_kw (serving_text s) = true → u = "serving") := by
  cases htok : firstNumToken (serving_text s) with
  | none =>
      simp only [parse_serving_size, htok, Option.some.injEq, Prod.mk.injEq] at h
      obtain ⟨ha, hu⟩ := h
      subst ha
      subst hu
      exact ⟨by norm_num, servingUnit_mem _, fun _ => rfl,
        fun hk => servingUnit_default _ hk⟩
  | some tok =>
      simp only [parse_serving_size, htok, Option.map_eq_some', Prod.mk.injEq] at h
      obtain ⟨av, hav, ha, hu⟩ := h
      subst ha
      subst hu
      refine ⟨pyFloatOfToken_nonneg _ _ hav, servingUnit_mem _, ?_,
        fun hk => servingUnit_default _ hk⟩
      intro hnone
      exact Option.noConfusion hnone

/-- C5 witness: the amended parser contract at the input "cup". -/
theorem c5_witness :
    0 ≤ (1 : ℚ) ∧ unit_enum.contains "cup" = true ∧
      (firstNumToken (serving_text "cup") = none → (1 : ℚ) = 1) ∧
      (no_unit_kw (serving_text "cup") = true → "cup" = "serving") :=
  c5_amended "cup" 1 "cup" rfl


/-! ### Claim C6 -/

theorem isSubstr_iff (pat l : List Char) : isSubstr pat l = true ↔ pat <:+: l := by
  induction l with
  | nil =>
      simp only [isSubstr, List.isEmpty_iff]
      constructor
      · intro h
        rw [h]
      · intro h
        exact List.eq_nil_of_infix_nil h
  | cons c rest ih =>
      simp [isSubstr, List.infix_cons_iff, ih, List.isPrefixOf_iff_prefix]

/-- Python `in` is transitive across nesting: if `p` occurs in `s` and `q`
occurs in `p`, then `q` occurs in `s`. -/
theorem strContains_trans {s p q : String} (h1 : strContains s p = true)
    (h2 : strContains p q = true) : strContains s q = true := by
  unfold strContains at h1 h2 ⊢
  rw [isSubstr_iff] at h1 h2 ⊢
  exact h2.trans h1

/-- The spec's ordered rule table (§4.2), written as predicate/category
pairs evaluated first-match-wins. -/
def spec_rules : List ((String → Bool) × String) :=
  [(fun nm => strContains nm "pad thai", "pad_thai"),
   (fun nm => protein_kws.any (fun x => strContains nm x), "protein"),
   (fun nm => starch_kws.any (fun x => strContains nm x), "starch"),
   (fun nm => vegetable_kws.any (fun x => strContains nm x), "vegetable"),
   (fun nm => ["soup", "chili"].any (fun x => strContains nm x), "soup"),
   (fun nm => strContains nm "pizza", "pizza"),
   (fun nm => ["burrito", "taco", "salsa"].any (fun x => strContains nm x), "mexican"),
   (fun nm => strContains nm "bean" && !strContains nm "green", "beans"),
   (fun nm => strContains nm "salad", "salad"),
   (fun nm => ["bread", "breadstick"].any (fun x => strContains nm x), "bread"),
   (fun nm => ["cake", "pie", "cookie", "crisp", "quiche"].any
      (fun x => strContains nm x), "dessert"),
   (fun nm => ["sauce", "marinara"].any (fun x => strContains nm x), "sauce"),
   (fun nm => strContains nm "roll", "sushi")]

/-- First-match-wins evaluation of an ordered rule table. -/
def firstMatch (n : String) : List ((String → Bool) × String) → String
  | [] => "generic"
  | r :: rest => if r.1 n then r.2 else firstMatch n rest

/-- The categorizer as the spec describes it: the ordered rule table,
first match wins, `generic` as the fallback. -/
def spec_categorize (name : String) : String := firstMatch (pyLower name) spec_rules

/-- Name contains no keyword of the rules preceding the vegetable rule
(pad thai, protein, starch). -/
def c6_earlier_absent (name : String) : Bool :=
  !strContains (pyLower name) "pad thai" &&
    !(protein_kws.any (fun x => strContains (pyLower name) x)) &&
    !(starch_kws.any (fun x => strContains (pyLower name) x))

/-- No rule of the table matches the name. -/
def matches_no_rule (name : String) : Bool :=
  spec_rules.all (fun r => !(r.1 (pyLower name)))

/-- C6 counterexample: the claim's universal "every name containing 'green
bean' is categorized vegetable" fails — a name that also contains the
higher-precedence protein keyword "chicken" is categorized `protein`. -/
theorem c6_counterexample :
    strContains (pyLower "Green Bean Chicken Casserole") "green bean" = true ∧
    categorize_food "Green Bean Chicken Casserole" = "protein" ∧
    categorize_food "Green Bean Chicken Casserole" ≠ "vegetable" := by
  refine ⟨by decide, by decide, by decide⟩

set_option maxHeartbeats 1600000 in
/-- C6 (amended): the categorizer is exactly the spec's 14-rule ordered
table with first-match-wins semantics; every name containing "pad thai"
is `pad_thai`; every name containing "green bean" *and no keyword of an
earlier rule* is `vegetable`, and a name containing "green bean" is never
`beans` (the "green" exclusion); a name matching no rule is `generic`. -/
theorem c6_amended :
    (∀ n, categorize_food n = spec_categorize n) ∧
    (∀ n, strContains (pyLower n) "pad thai" = true → categorize_food n = "pad_thai") ∧
    (∀ n, strContains (pyLower n) "green bean" = true → c6_earlier_absent n = true →
      categorize_food n = "vegetable") ∧
    (∀ n, strContains (pyLower n) "green bean" = true → categorize_food n ≠ "beans") ∧
    (∀ n, matches_no_rule n = true → categorize_food n = "generic") := by
  refine ⟨?_, ?_, ?_, ?_, ?_⟩
  · intro n
    unfold categorize_food spec_categorize spec_rules
    simp only [firstMatch]
    by_cases hpt : strContains (pyLower n) "pad thai" = true
    · simp only [if_pos hpt]
    · simp only [if_neg hpt]
  · intro n h
    simp [categorize_food, h]
  · intro n hgb habs
    simp only [c6_earlier_absent, Bool.and_eq_true, Bool.not_eq_true'] at habs
    obtain ⟨⟨h1, h2⟩, h3⟩ := habs
    simp [categorize_food, vegetable_kws, h1, h2, h3, hgb]
  · intro n hgb hcontra
    have hg : strContains (pyLower n) "green" = true :=
      strContains_trans hgb (by decide)
    simp only [categorize_food] at hcontra
    by_cases hx0 : strContains (pyLower n) "pad thai" = true
    · simp only [if_pos hx0] at hcontra
      exact absurd hcontra (by decide)
    simp only [if_neg hx0] at hcontra
    by_cases hx1 : (protein_kws.any fun x => strContains (pyLower n) x) = true
    · simp only [if_pos hx1] at hcontra
      exact absurd hcontra (by decide)
    simp only [if_neg hx1] at hcontra
    by_cases hx2 : (starch_kws.any fun x => strContains (pyLower n) x) = true
    · simp only [if_pos hx2] at hcontra
      exact absurd hcontra (by decide)
    simp only [if_neg hx2] at hcontra
    by_cases hx3 : (vegetable_kws.any fun x => strContains (pyLower n) x) = true
    · simp only [if_pos hx3] at hcontra
      exact absurd hcontra (by decide)
    simp only [if_neg hx3] at hcontra
    by_cases hx4 : (["soup", "chili"].any fun x => strContains (pyLower n) x) = true
    · simp only [if_pos hx4] at hcontra
      exact absurd hcontra (by decide)
    simp only [if_neg hx4] at hcontra
    by_cases hx5 : strContains (pyLower n) "pizza" = true
    · simp only [if_pos hx5] at hcontra
      exact absurd hcontra (by decide)
    simp only [if_neg hx5] at hcontra
    by_cases hx6 : (["burrito", "taco", "salsa"].any fun x => strContains (pyLower n) x) = true
    · simp only [if_pos hx6] at hcontra
      exact absurd hcontra (by decide)
    simp only [if_neg hx6] at hcontra
    by_cases hx7 : (strContains (pyLower n) "bean" && !strContains (pyLower n) "green") = true
    · rw [hg] at hx7
      simp at hx7
    simp only [if_neg hx7] at hcontra
    by_cases hx8 : strContains (pyLower n) "salad" = true
    · simp only [if_pos hx8] at hcontra
      exact absurd hcontra (by decide)
    simp only [if_neg hx8] at hcontra
    by_cases hx9 : (["bread", "breadstick"].any fun x => strContains (pyLower n) x) = true
    · simp only [if_pos hx9] at hcontra
      exact absurd hcontra (by decide)
    simp only [if_neg hx9] at hcontra
    by_cases hx10 : (["cake", "pie", "cookie", "crisp", "quiche"].any fun x => strContains (pyLower n) x) = true
    · simp only [if_pos hx10] at hcontra
      exact absurd hcontra (by decide)
    simp only [if_neg hx10] at hcontra
    by_cases hx11 : (["sauce", "marinara"].any fun x => strContains (pyLower n) x) = true
    · simp only [if_pos hx11] at hcontra
      exact absurd hcontra (by decide)
    simp only [if_neg hx11] at hcontra
    by_cases hx12 : strContains (pyLower n) "roll" = true
    · simp only [if_pos hx12] at hcontra
      exact absurd hcontra (by decide)
    simp only [if_neg hx12] at hcontra
    exact absurd hcontra (by decide)
  · intro n h
    simp only [matches_no_rule, spec_rules, List.all_cons, List.all_nil,
      Bool.and_eq_true, Bool.not_eq_true'] at h
    obtain ⟨h1, h2, h3, h4, h5, h6, h7, h8, h9, h10, h11, h12, h13, -⟩ := h
    simp [categorize_food, h1, h2, h3, h4, h5, h6, h7, h8, h9, h10, h11, h12, h13]

/-- C6 witness: the amended categorizer facts at the spec's examples. -/
theorem c6_witness :
    categorize_food "Pad Thai with Chicken" = "pad_thai" ∧
    categorize_food "Green Bean Almondine" = "vegetable" ∧
    categorize_food "Green Bean Almondine" ≠ "beans" ∧
    categorize_food "Assorted Condiments" = "generic" ∧
    categorize_food "Grilled Salmon" = spec_categorize "Grilled Salmon" :=
  ⟨c6_amended.2.1 "Pad Thai with Chicken" (by decide),
   c6_amended.2.2.1 "Green Bean Almondine" (by decide) (by decide),
   c6_amended.2.2.2.1 "Green Bean Almondine" (by decide),
   c6_amended.2.2.2.2 "Assorted Condiments" (by decide),
   c6_amended.1 "Grilled Salmon"⟩


/-! ### Claim C7 -/

/-- C7: every emitted record satisfies the daily-value invariant: each of
the six DV-bearing pairs has `dv = round(raw / reference * 100)` against
the fixed reference table (65 g fat, 20 g saturated fat, 300 mg
cholesterol, 2400 mg sodium, 300 g carbs, 25 g fiber), where `raw` is the
emitted paired value and `round` is Python's rounding. -/
theorem c7_dv_invariant (n s : String) (t : List String) (r : NutritionFacts)
    (h : estimate_nutrition n s t = some r) :
    r.total_fat_dv = pyRound (r.total_fat_g / 65 * 100) ∧
    r.saturated_fat_dv = pyRound (r.saturated_fat_g / 20 * 100) ∧
    r.cholesterol_dv = pyRound ((r.cholesterol_mg : ℚ) / 300 * 100) ∧
    r.sodium_dv = pyRound ((r.sodium_mg : ℚ) / 2400 * 100) ∧
    r.total_carbs_dv = pyRound ((r.total_carbs_g : ℚ) / 300 * 100) ∧
    r.dietary_fiber_dv = pyRound (r.dietary_fiber_g / 25 * 100) := by
  obtain ⟨d, hok, -, rfl⟩ := estimate_nutrition_shape n s t r h
  unfold normalize_nutrition calc_dv_percent
  dsimp only
  rw [DV_total_fat, DV_saturated_fat, DV_cholesterol, DV_sodium, DV_total_carbs,
    DV_dietary_fiber, pyRound1_fix hok.1, pyRound1_fix hok.2.1,
    pyRound1_fix hok.2.2.2.1]
  exact ⟨rfl, rfl, rfl, rfl, rfl, rfl⟩

/-- C7 witness: the daily-value invariant at the "Breadstick" item. -/
theorem c7_witness :
    (normalize_nutrition (bread_core "breadstick")).total_fat_dv =
      pyRound ((normalize_nutrition (bread_core "breadstick")).total_fat_g / 65 * 100) ∧
    (normalize_nutrition (bread_core "breadstick")).saturated_fat_dv =
      pyRound ((normalize_nutrition (bread_core "breadstick")).saturated_fat_g / 20 * 100) ∧
    (normalize_nutrition (bread_core "breadstick")).cholesterol_dv =
      pyRound (((normalize_nutrition (bread_core "breadstick")).cholesterol_mg : ℚ) / 300 * 100) ∧
    (normalize_nutrition (bread_core "breadstick")).sodium_dv =
      pyRound (((normalize_nutrition (bread_core "breadstick")).sodium_mg : ℚ) / 2400 * 100) ∧
    (normalize_nutrition (bread_core "breadstick")).total_carbs_dv =
      pyRound (((normalize_nutrition (bread_core "breadstick")).total_carbs_g : ℚ) / 300 * 100) ∧
    (normalize_nutrition (bread_core "breadstick")).dietary_fiber_dv =
      pyRound ((normalize_nutrition (bread_core "breadstick")).dietary_fiber_g / 25 * 100) :=
  c7_dv_invariant "Breadstick" "stick" [] (normalize_nutrition (bread_core "breadstick")) rfl


/-! ### Claim C8 -/

/-- C8 counterexample: only the salad and pad-thai estimators read the
`contains_nuts` tag.  A dessert ("Chocolate Cake") estimated with the tag
is identical to the same item without it — the tag does not raise
calories, fat, or protein. -/
theorem c8_counterexample :
    estimate_nutrition "Chocolate Cake" "slice" ["contains_nuts"] =
      estimate_nutrition "Chocolate Cake" "slice" [] := rfl

/-- The salad branch bodies always leave `protein_g` an integer value. -/
theorem salad_core_base_protein (nl : String) (am : ℚ) (u : String) :
    ∃ k : ℤ, (salad_core_base nl am u).protein_g = (k : ℚ) := by
  unfold salad_core_base create_base_nutrition
  dsimp only
  split_ifs <;> dsimp only <;>
    first
      | exact ⟨_, rfl⟩
      | exact ⟨0, by norm_num⟩

/-- C8 (amended): the `contains_nuts` monotonicity holds for every item
categorized `salad`: adding the tag yields strictly higher emitted
`calories`, `total_fat_g` and `protein_g` than the same name, serving and
remaining tags without it.  (Estimators other than salad and pad thai
ignore the tag, and pad thai's serving-scaled bonus can round to zero.) -/
theorem c8_amended (n s : String) (t : List String) (a b : NutritionFacts)
    (h1 : categorize_food n = "salad") (h2 : t.contains "contains_nuts" = false)
    (ha : estimate_nutrition n s ("contains_nuts" :: t) = some a)
    (hb : estimate_nutrition n s t = some b) :
    b.calories < a.calories ∧ b.total_fat_g < a.total_fat_g ∧
      b.protein_g < a.protein_g := by
  simp only [estimate_nutrition] at ha hb
  rw [h1, run_estimator_salad] at ha
  rw [h1, run_estimator_salad] at hb
  unfold estimate_salad_nutrition at ha hb
  cases hp : parse_serving_size s with
  | none =>
      rw [hp] at ha
      exact absurd ha (by simp)
  | some p =>
      rw [hp] at ha hb
      simp only [Option.map_some', Option.some.injEq] at ha hb
      subst ha
      subst hb
      have hnuts : (("contains_nuts" :: t).contains "contains_nuts") = true := by simp
      have hneg : ¬(t.contains "contains_nuts" = true) := by
        rw [h2]
        simp
      unfold salad_core
      dsimp only
      rw [if_pos hnuts, if_neg hneg]
      obtain ⟨k, hk⟩ := salad_core_base_protein (pyLower n) p.1 p.2
      unfold normalize_nutrition
      dsimp only
      refine ⟨by omega, ?_, ?_⟩
      · rw [show ((salad_core_base (pyLower n) p.1 p.2).total_fat_g + 7) =
            ((salad_core_base (pyLower n) p.1 p.2).total_fat_g + ((7 : ℤ) : ℚ)) by
              push_cast; ring,
          pyRound1_add_int]
        push_cast
        linarith
      · rw [hk, show ((k : ℚ) + 2) = (((k + 2 : ℤ)) : ℚ) by push_cast; ring,
          pyInt_intCast, pyInt_intCast]
        exact_mod_cast by omega

/-- C8 witness: the amended strict monotonicity at "Caesar Salad". -/
theorem c8_witness :
    (normalize_nutrition (salad_core "caesar salad" 1 "serving" [])).calories <
      (normalize_nutrition (salad_core "caesar salad" 1 "serving" ["contains_nuts"])).calories ∧
    (normalize_nutrition (salad_core "caesar salad" 1 "serving" [])).total_fat_g <
      (normalize_nutrition (salad_core "caesar salad" 1 "serving" ["contains_nuts"])).total_fat_g ∧
    (normalize_nutrition (salad_core "caesar salad" 1 "serving" [])).protein_g <
      (normalize_nutrition (salad_core "caesar salad" 1 "serving" ["contains_nuts"])).protein_g :=
  c8_amended "Caesar Salad" "bowl" []
    (normalize_nutrition (salad_core "caesar salad" 1 "serving" ["contains_nuts"]))
    (normalize_nutrition (salad_core "caesar salad" 1 "serving" [])) rfl rfl rfl rfl


/-! ### Claim C9 -/

/-- C9: an item categorized `generic` is estimated exactly by the
vegetable estimator followed by the normalizer — the registry lookup
falls back to `estimate_vegetable_nutrition`. -/
theorem c9_generic_fallback (n s : String) (t : List String)
    (h : categorize_food n = "generic") :
    estimate_nutrition n s t =
      (estimate_vegetable_nutrition n s t).map normalize_nutrition := by
  simp only [estimate_nutrition]
  rw [h, run_estimator_generic]

/-- C9 witness: the fallback at "Assorted Condiments". -/
theorem c9_witness :
    estimate_nutrition "Assorted Condiments" "tray" [] =
      (estimate_vegetable_nutrition "Assorted Condiments" "tray" []).map
        normalize_nutrition :=
  c9_generic_fallback "Assorted Condiments" "tray" [] rfl

/-! ### Claim C10 -/

theorem pyRound_zero : pyRound 0 = 0 := by
  unfold pyRound
  norm_num

theorem pyInt_zero : pyInt 0 = 0 := by
  unfold pyInt
  norm_num

theorem pyRound1_zero : pyRound1 0 = 0 := by
  unfold pyRound1
  rw [show (10 : ℚ) * 0 = ((0 : ℤ) : ℚ) by norm_num, pyRound_intCast]
  norm_num

/-- Normalizing the all-zero template gives back the all-zero template. -/
theorem normalize_base :
    normalize_nutrition create_base_nutrition = create_base_nutrition := by
  unfold normalize_nutrition create_base_nutrition calc_dv_percent
  dsimp only
  simp [NutritionFacts.mk.injEq, pyRound_zero, pyRound1_zero, pyInt_zero,
    zero_div, zero_mul, Int.cast_zero]

/-- C10 side condition: the name contains "potato" and none of the
keywords checked earlier on its evaluation path — no "pad thai", no
protein keyword (which would steal the item from the starch category),
none of the starch estimator's earlier branch keywords (rice, pasta,
spaghetti, spirals, farfalle), and none of baked/sweet/mashed. -/
def c10_side (name : String) : Bool :=
  strContains (pyLower name) "potato" &&
    !strContains (pyLower name) "pad thai" &&
    !(protein_kws.any (fun x => strContains (pyLower name) x)) &&
    !strContains (pyLower name) "rice" &&
    !strContains (pyLower name) "pasta" &&
    !strContains (pyLower name) "spaghetti" &&
    !strContains (pyLower name) "spirals" &&
    !strContains (pyLower name) "farfalle" &&
    !strContains (pyLower name) "baked" &&
    !strContains (pyLower name) "sweet" &&
    !strContains (pyLower name) "mashed"

/-- C10: a plain potato item (name contains "potato", no earlier-path
keyword, not baked/sweet/mashed) whose parsed serving unit is not
"potato" reaches the potato branch of the starch estimator but matches
none of its three sub-cases, so no nutrient is ever set and the emitted
record is the all-zero template (all 21 fields zero, no extra key). -/
theorem c10_plain_potato_zero (n s : String) (t : List String) (a : ℚ) (u : String)
    (hside : c10_side n = true) (hp : parse_serving_size s = some (a, u))
    (hu : u ≠ "potato") :
    estimate_nutrition n s t = some create_base_nutrition := by
  simp only [c10_side, Bool.and_eq_true, Bool.not_eq_true'] at hside
  obtain ⟨⟨⟨⟨⟨⟨⟨⟨⟨⟨hpot, hpt⟩, hprot⟩, hrice⟩, hpasta⟩, hspag⟩, hspir⟩, hfarf⟩,
    hbaked⟩, hsweet⟩, hmash⟩ := hside
  have hcat : categorize_food n = "starch" := by
    simp [categorize_food, starch_kws, hpt, hprot, hpot, hrice, hpasta, hspag,
      hspir, hfarf]
  simp only [estimate_nutrition]
  rw [hcat, run_estimator_starch]
  unfold estimate_starch_nutrition
  rw [hp]
  simp only [Option.map_some', Option.some.injEq]
  unfold starch_core
  dsimp only
  rw [if_neg (by simp [hrice]), if_neg (by simp [hpasta, hspag, hspir, hfarf]),
    if_pos hpot, if_neg (by simp [hmash]), if_neg (by simp [hsweet]),
    if_neg (by simp [hbaked, hu])]
  exact normalize_base

/-- C10 witness: "Potato Wedges" with a 1 oz serving is emitted all-zero. -/
theorem c10_witness :
    estimate_nutrition "Potato Wedges" "oz" [] = some create_base_nutrition :=
  c10_plain_potato_zero "Potato Wedges" "oz" [] 1 "oz" (by decide) rfl (by decide)

end Soma
